import Mathlib

/-!
Verification of the vision-bridge MCP server (`.mcp/vision-bridge/server.py`).

The development shallowly embeds the server's pipeline:
`_resolve_workspace_path` (path containment, existence, extension checks),
`_load_image_b64` (decode + downscale dimensions), `_ollama_chat_with_image`
(payload construction and backend error handling), and the three tool
handlers `vision_ask`, `vision_ocr`, `vision_ui_spec`.

Paths are modelled as lists of components of a canonical absolute path;
`Path.resolve()` and the filesystem probes are abstracted into an `FS`
record of functions.  Machine arithmetic in the image downscale is modelled
exactly: Python's `int(w * (MAX/edge))` for nonnegative values is the
rational floor `w * MAX / edge`, which is Nat division here.  Python's
`json.loads` is embedded as a fueled recursive-descent JSON reader over
the grammar the server's replies use (null, booleans, integers, strings,
arrays, objects).
-/

namespace VisionBridge

/-- A caller-supplied path, as `pathlib.Path(p)` classifies it:
absolute or relative, with its components. -/
structure RawPath where
  isAbs : Bool
  comps : List String
deriving DecidableEq

/-- The filesystem the server runs against.  `canon` models
`Path.resolve()` (elimination of `.`/`..` and symlinks, yielding a
canonical absolute path); `path_exists` models `Path.exists()`;
`is_file` models `Path.is_file()` (the server never calls it, but the
spec speaks of regular files); `decodeImage` models
`PIL.Image.open(path).convert("RGB")`, returning the pixel dimensions
`(width, height)` on success and `none` on a decode failure. -/
structure FS where
  canon : List String → List String
  path_exists : List String → Bool
  is_file : List String → Bool
  decodeImage : List String → Option (Nat × Nat)

/-- `str()` of an absolute path with the given components. -/
def pathStr (comps : List String) : String :=
  "/" ++ String.intercalate "/" comps

/-- `str(candidate.relative_to(root))`: the components of `candidate`
after the `root` prefix, joined by `/` (`.` when nothing remains). -/
def relative_to_str (root cand : List String) : String :=
  let r := cand.drop root.length
  if r = [] then "." else String.intercalate "/" r

/-- Index of the last occurrence of `c` in the list, if any. -/
def rfindIdx (c : Char) : List Char → Option Nat
  | [] => none
  | x :: xs =>
    match rfindIdx c xs with
    | some i => some (i + 1)
    | none => if x = c then some 0 else none

/-- `pathlib.PurePath.suffix` of a final component `name`: the substring
from the last dot, provided that dot is neither the first nor the last
character; otherwise the empty string. -/
def pySuffix (name : String) : String :=
  let cs := name.data
  match rfindIdx '.' cs with
  | some i => if 0 < i ∧ i < cs.length - 1 then String.mk (cs.drop i) else ""
  | none => ""

/-- Lowercase one character, on the ASCII range file extensions use
(str.lower() restricted to ASCII). -/
def asciiLowerChar (c : Char) : Char :=
  if 65 ≤ c.toNat ∧ c.toNat ≤ 90 then Char.ofNat (c.toNat + 32) else c

/-- `str.lower()` on ASCII text, e.g. a file extension. -/
def pyLower (s : String) : String :=
  String.mk (s.data.map asciiLowerChar)

/-- Python's whitespace set for `str.strip()` (ASCII range). -/
def isPyWs (c : Char) : Bool :=
  c = ' ' ∨ c = '\t' ∨ c = '\n' ∨ c = '\r' ∨ c = '\x0b' ∨ c = '\x0c'

/-- `str.strip()`: drop whitespace from both ends. -/
def pyStrip (s : String) : String :=
  String.mk (((s.data.dropWhile isPyWs).reverse.dropWhile isPyWs).reverse)

/-- The extension allow-list of `_resolve_workspace_path`. -/
def allowed_suffixes : List String :=
  [".png", ".jpg", ".jpeg", ".webp", ".bmp"]

/-- The three failure modes of `_resolve_workspace_path`, each carrying
the exception message the server raises. -/
inductive ResolveError where
  | outsideRoot (msg : String)
  | notFound (msg : String)
  | unsupportedType (msg : String)
deriving DecidableEq

/-- The candidate path of `_resolve_workspace_path`:
`(WORKSPACE_ROOT / raw).resolve()` when `raw` is relative, else
`raw.resolve()`. -/
def candidateOf (fs : FS) (root : List String) (p : RawPath) : List String :=
  if p.isAbs then fs.canon p.comps else fs.canon (root ++ p.comps)

/-- `_resolve_workspace_path`: containment check
(`candidate.relative_to(WORKSPACE_ROOT)`, i.e. the canonical root's
components are a prefix of the candidate's), then existence
(`candidate.exists()`), then the case-insensitive extension allow-list,
in that order; on success the validated candidate path. -/
def resolve_workspace_path (fs : FS) (root : List String) (p : RawPath) :
    Except ResolveError (List String) :=
  let candidate := candidateOf fs root p
  if root.isPrefixOf candidate then
    if fs.path_exists candidate then
      if allowed_suffixes.contains (pyLower (pySuffix (candidate.getLastD ""))) then
        Except.ok candidate
      else
        Except.error (ResolveError.unsupportedType
          ("Unsupported image type: " ++ pySuffix (candidate.getLastD "")))
    else
      Except.error (ResolveError.notFound ("File not found: " ++ pathStr candidate))
  else
    Except.error (ResolveError.outsideRoot
      ("Path must be within workspace root: " ++ pathStr root))

/-- The dimension part of `_load_image_b64`: with `edge = max w h`, if
`edge > maxEdge` resize to `(int(w * scale), int(h * scale))` where
`scale = maxEdge / edge`; Python's `int` truncation of the nonnegative
product is floor, i.e. Nat division. -/
def normalizeDims (maxEdge w h : Nat) : Nat × Nat :=
  let edge := max w h
  if maxEdge < edge then (w * maxEdge / edge, h * maxEdge / edge) else (w, h)

/-- One entry of the `messages` array of the request payload. -/
structure ChatMessage where
  role : String
  content : String
  images : List String
deriving DecidableEq

/-- The JSON body `_ollama_chat_with_image` posts to `/api/chat`:
`format` is `some "json"` exactly when the `format: "json"` key is set. -/
structure ChatPayload where
  model : String
  messages : List ChatMessage
  stream : Bool
  format : Option String
deriving DecidableEq

/-- The `message` object of the backend's JSON reply; `content` is
`none` when the field is absent. -/
structure OllamaMessage where
  content : Option String
deriving DecidableEq

/-- What the backend does with one request: `requests.post` raises a
connection error, raises a timeout, or returns a response with an HTTP
status and a parsed JSON body whose `message` field may be absent. -/
inductive BackendBehavior where
  | connectionFailure
  | timeout
  | response (status : Nat) (message : Option OllamaMessage)

/-- The backend failures of `_ollama_chat_with_image`, as the spec names
them: `requests.ConnectionError`, `requests.Timeout`, and the
`requests.HTTPError` of `raise_for_status` carrying the status. -/
inductive ChatError where
  | backendUnavailable
  | backendTimeout
  | backendError (status : Nat)
deriving DecidableEq

/-- The payload `_ollama_chat_with_image` builds: the configured model,
a single user message carrying the prompt and the one base64 image,
`stream: false`, and `format: "json"` exactly when `json_mode`. -/
def mkPayload (model image_b64 prompt : String) (json_mode : Bool) : ChatPayload :=
  { model := model
    messages := [{ role := "user", content := prompt, images := [image_b64] }]
    stream := false
    format := if json_mode then some "json" else none }

/-- `Response.raise_for_status` raises exactly for the client-error and
server-error status ranges. -/
def status_raises (status : Nat) : Bool :=
  decide (400 ≤ status ∧ status < 600)

/-- Reply-text extraction of `_ollama_chat_with_image`:
`(data.get("message", {}) or {}).get("content", "").strip()`. -/
def extract_reply (message : Option OllamaMessage) : String :=
  pyStrip ((message.getD { content := none }).content.getD "")

/-- `_ollama_chat_with_image`: build the payload, post it, map the three
backend failures, and on success extract the trimmed reply text. -/
def ollama_chat_with_image (backend : ChatPayload → BackendBehavior)
    (model image_b64 prompt : String) (json_mode : Bool) :
    Except ChatError String :=
  match backend (mkPayload model image_b64 prompt json_mode) with
  | BackendBehavior.connectionFailure => Except.error ChatError.backendUnavailable
  | BackendBehavior.timeout => Except.error ChatError.backendTimeout
  | BackendBehavior.response status message =>
    if status_raises status then Except.error (ChatError.backendError status)
    else Except.ok (extract_reply message)

/-- JSON values, as Python's `json.loads` produces them (numbers
restricted to the integers, which is all the development evaluates). -/
inductive Json where
  | null
  | bool (b : Bool)
  | num (n : Int)
  | str (s : String)
  | arr (elems : List Json)
  | obj (fields : List (String × Json))

/-- Drop leading JSON whitespace. -/
def skipWs : List Char → List Char
  | c :: cs => if c = ' ' ∨ c = '\t' ∨ c = '\n' ∨ c = '\r' then skipWs cs else c :: cs
  | [] => []

/-- The character coded by a JSON string escape, if supported. -/
def unescapeChar (c : Char) : Option Char :=
  if c = '"' then some '"'
  else if c = '\\' then some '\\'
  else if c = '/' then some '/'
  else if c = 'n' then some '\n'
  else if c = 't' then some '\t'
  else if c = 'r' then some '\r'
  else none

/-- Read the body of a JSON string up to (and past) the closing quote. -/
def readStrChars : List Char → Option (String × List Char)
  | [] => none
  | '"' :: rest => some ("", rest)
  | '\\' :: e :: rest => do
    let c ← unescapeChar e
    let (s, r) ← readStrChars rest
    some (String.mk (c :: s.data), r)
  | c :: rest => do
    let (s, r) ← readStrChars rest
    some (String.mk (c :: s.data), r)

/-- Decimal digits to a natural number. -/
def digitsToNat (ds : List Char) : Nat :=
  ds.foldl (fun a c => a * 10 + (c.toNat - 48)) 0

/-- Read a JSON integer (optional minus sign, then digits). -/
def readNum (cs : List Char) : Option (Json × List Char) :=
  match cs with
  | '-' :: rest =>
    let p := rest.span Char.isDigit
    if p.1 = [] then none else some (Json.num (-(digitsToNat p.1 : Int)), p.2)
  | _ =>
    let p := cs.span Char.isDigit
    if p.1 = [] then none else some (Json.num (digitsToNat p.1), p.2)

mutual

/-- Read one JSON value, fueled. -/
def readVal : Nat → List Char → Option (Json × List Char)
  | 0, _ => none
  | fuel + 1, cs =>
    match skipWs cs with
    | 'n' :: 'u' :: 'l' :: 'l' :: rest => some (Json.null, rest)
    | 't' :: 'r' :: 'u' :: 'e' :: rest => some (Json.bool true, rest)
    | 'f' :: 'a' :: 'l' :: 's' :: 'e' :: rest => some (Json.bool false, rest)
    | '"' :: rest => do
      let (s, r) ← readStrChars rest
      some (Json.str s, r)
    | '[' :: rest =>
      (match skipWs rest with
       | ']' :: r2 => some (Json.arr [], r2)
       | _ => do
         let (xs, r2) ← readArrItems fuel rest
         some (Json.arr xs, r2))
    | '\x7b' :: rest =>
      (match skipWs rest with
       | '\x7d' :: r2 => some (Json.obj [], r2)
       | _ => do
         let (fs, r2) ← readObjItems fuel rest
         some (Json.obj fs, r2))
    | other => readNum other

/-- Read the comma-separated items of a nonempty JSON array, past `]`. -/
def readArrItems : Nat → List Char → Option (List Json × List Char)
  | 0, _ => none
  | fuel + 1, cs => do
    let (j, r) ← readVal fuel cs
    match skipWs r with
    | ',' :: r2 => do
      let (xs, r3) ← readArrItems fuel r2
      some (j :: xs, r3)
    | ']' :: r2 => some ([j], r2)
    | _ => none

/-- Read the members of a nonempty JSON object, past the closing brace. -/
def readObjItems : Nat → List Char → Option (List (String × Json) × List Char)
  | 0, _ => none
  | fuel + 1, cs =>
    match skipWs cs with
    | '"' :: r => do
      let (k, r1) ← readStrChars r
      match skipWs r1 with
      | ':' :: r2 => do
        let (v, r3) ← readVal fuel r2
        match skipWs r3 with
        | ',' :: r4 => do
          let (fs, r5) ← readObjItems fuel r4
          some ((k, v) :: fs, r5)
        | '\x7d' :: r4 => some ([(k, v)], r4)
        | _ => none
      | _ => none
    | _ => none

end

/-- `json.loads`: parse one JSON value and require only whitespace after
it; `none` models the `json.JSONDecodeError` branch. -/
def json_loads (s : String) : Option Json :=
  match readVal (s.length + 1) s.data with
  | some (j, rest) => if skipWs rest = [] then some j else none
  | none => none

/-- Any failure that aborts a tool call: a path-resolution failure, an
image decode failure (`PIL` raising in `_load_image_b64`), or a backend
failure. -/
inductive ToolError where
  | resolveErr (e : ResolveError)
  | decodeErr (msg : String)
  | chatErr (e : ChatError)
deriving DecidableEq

/-- The process-wide configuration and ambient world of the server:
`WORKSPACE_ROOT` (canonical components), `OLLAMA_MODEL`,
`MAX_IMAGE_EDGE`, the filesystem, the PNG re-encode + base64 step of
`_load_image_b64` as a function of the (resized) dimensions, and the
backend reached through `requests.post`. -/
structure Env where
  fs : FS
  root : List String
  ollama_model : String
  maxEdge : Nat
  encode_b64 : Nat × Nat → String
  backend : ChatPayload → BackendBehavior

/-- `_load_image_b64`: decode the image, downscale its dimensions when
oversized, and return the base64 text of the re-encoded PNG. -/
def load_image_b64 (env : Env) (path : List String) : Except ToolError String :=
  match env.fs.decodeImage path with
  | none => Except.error (ToolError.decodeErr "cannot identify image file")
  | some (w, h) => Except.ok (env.encode_b64 (normalizeDims env.maxEdge w h))

/-- `json_mode` of the `vision_ask` handler's chat call. -/
def ask_json_mode : Bool := false

/-- `json_mode` of the `vision_ocr` handler's chat call. -/
def ocr_json_mode : Bool := false

/-- `json_mode` of the `vision_ui_spec` handler's chat call. -/
def ui_spec_json_mode : Bool := true

/-- The fixed OCR prompt of `vision_ocr`. -/
def ocr_prompt : String :=
  "Extract ALL visible text from this image.\n" ++
  "Rules:\n" ++
  "- Keep original spelling, casing, punctuation.\n" ++
  "- Preserve line breaks.\n" ++
  "- If something is partially unreadable, write [illegible].\n" ++
  "Return only the extracted text."

/-- The fixed UI-spec prompt of `vision_ui_spec` (abridged to its first
line; its exact text is not load-bearing for any claim). -/
def ui_spec_prompt : String :=
  "You are extracting a UI spec from a screenshot.\n"

/-- The result dictionary of `vision_ask`. -/
structure AskResult where
  model : String
  image : String
  answer : String
deriving DecidableEq

/-- The result dictionary of `vision_ocr`. -/
structure OcrResult where
  model : String
  image : String
  text : String
deriving DecidableEq

/-- The result dictionary of `vision_ui_spec`: exactly one of `ui` and
`ui_raw` is populated; `none` models an absent key. -/
structure UiSpecResult where
  model : String
  image : String
  ui : Option Json
  ui_raw : Option String

/-- `vision_ask`: resolve, load, chat with the question verbatim and
`json_mode=False`, and shape `{model, image, answer}` with the image
path relative to the workspace root. -/
def vision_ask (env : Env) (image_path : RawPath) (question : String) :
    Except ToolError AskResult := do
  let path ← (resolve_workspace_path env.fs env.root image_path).mapError ToolError.resolveErr
  let b64 ← load_image_b64 env path
  let answer ← (ollama_chat_with_image env.backend env.ollama_model b64 question
    ask_json_mode).mapError ToolError.chatErr
  Except.ok { model := env.ollama_model, image := relative_to_str env.root path
              answer := answer }

/-- `vision_ocr`: as `vision_ask` with the fixed OCR prompt and
`json_mode=False`, shaping `{model, image, text}`. -/
def vision_ocr (env : Env) (image_path : RawPath) :
    Except ToolError OcrResult := do
  let path ← (resolve_workspace_path env.fs env.root image_path).mapError ToolError.resolveErr
  let b64 ← load_image_b64 env path
  let text ← (ollama_chat_with_image env.backend env.ollama_model b64 ocr_prompt
    ocr_json_mode).mapError ToolError.chatErr
  Except.ok { model := env.ollama_model, image := relative_to_str env.root path
              text := text }

/-- The reply-shaping of `vision_ui_spec`: `json.loads(raw)` under
`try`; on success `{model, image, ui: parsed}`, on a parse failure
`{model, image, ui_raw: raw}`. -/
def ui_spec_shape (model image raw : String) : UiSpecResult :=
  match json_loads raw with
  | some parsed => { model := model, image := image, ui := some parsed, ui_raw := none }
  | none => { model := model, image := image, ui := none, ui_raw := some raw }

/-- `vision_ui_spec`: resolve, load, chat with the fixed UI-spec prompt
and `json_mode=True`, then shape the reply with the best-effort JSON
parse. -/
def vision_ui_spec (env : Env) (image_path : RawPath) :
    Except ToolError UiSpecResult := do
  let path ← (resolve_workspace_path env.fs env.root image_path).mapError ToolError.resolveErr
  let b64 ← load_image_b64 env path
  let raw ← (ollama_chat_with_image env.backend env.ollama_model b64 ui_spec_prompt
    ui_spec_json_mode).mapError ToolError.chatErr
  Except.ok (ui_spec_shape env.ollama_model (relative_to_str env.root path) raw)

/-- The element-type enumeration of the UiSpecDocument shape.
Modelled from the spec: the fixed enumeration of `elements[].type`. -/
def elementTypes : List String :=
  ["button", "text", "input", "checkbox", "toggle", "image", "icon",
   "panel", "list", "table", "link", "other"]

/-- Modelled from the spec: a value that is text or null. -/
def isNullableStr : Json → Bool
  | Json.null => true
  | Json.str _ => true
  | _ => false

/-- Modelled from the spec: a JSON number (the model carries integers). -/
def isNum : Json → Bool
  | Json.num _ => true
  | _ => false

/-- Modelled from the spec: the `bounds` object `{x, y, w, h}` with
numeric fields. -/
def matchesBounds : Json → Bool
  | Json.obj fields =>
    (match fields.lookup "x", fields.lookup "y",
           fields.lookup "w", fields.lookup "h" with
     | some x, some y, some w, some h =>
       isNum x && isNum y && isNum w && isNum h
     | _, _, _, _ => false)
  | _ => false

/-- Modelled from the spec: one element of `elements`: a `type` from the
enumeration, nullable `label`/`role`/`notes`, and a `bounds` object. -/
def matchesElement : Json → Bool
  | Json.obj fields =>
    (match fields.lookup "type", fields.lookup "label", fields.lookup "role",
           fields.lookup "bounds", fields.lookup "notes" with
     | some (Json.str t), some lab, some rol, some b, some nts =>
       elementTypes.contains t && isNullableStr lab && isNullableStr rol &&
         matchesBounds b && isNullableStr nts
     | _, _, _, _, _ => false)
  | _ => false

/-- Modelled from the spec: the UiSpecDocument shape — an object with a
text `summary` and an `elements` array of matching elements.  The server
never checks this shape; the definition exists to compare the spec's
words with what `vision_ui_spec` actually does. -/
def matchesUiSpecDocument : Json → Bool
  | Json.obj fields =>
    (match fields.lookup "summary", fields.lookup "elements" with
     | some (Json.str _), some (Json.arr elems) => elems.all matchesElement
     | _, _ => false)
  | _ => false

/-- A filesystem on which every workspace-relative candidate resolves to
`/etc/passwd` (a traversal or symlink escape). -/
def fsEscape : FS :=
  { canon := fun _ => ["etc", "passwd"]
    path_exists := fun _ => false
    is_file := fun _ => false
    decodeImage := fun _ => none }

/-- A filesystem whose only entry is a directory `/work/shots.png`:
`Path.exists()` is true there, `Path.is_file()` is false everywhere. -/
def fsDir : FS :=
  { canon := id
    path_exists := fun c => decide (c = ["work", "shots.png"])
    is_file := fun _ => false
    decodeImage := fun _ => none }

/-- An empty filesystem under an identity canonicalizer. -/
def fsMissing : FS :=
  { canon := id
    path_exists := fun _ => false
    is_file := fun _ => false
    decodeImage := fun _ => none }

/-- A filesystem where every path exists (and is a regular file). -/
def fsAll : FS :=
  { canon := id
    path_exists := fun _ => true
    is_file := fun _ => true
    decodeImage := fun _ => none }

/-- **C1.** When the canonicalized candidate `(root / p)` is neither the
canonical root nor nested under it, resolution fails with the
OutsideRoot error naming the configured root — whatever the filesystem
says about existence, so a non-existent path outside the root is
reported as a containment failure, never as NotFound. -/
theorem resolve_outside_root_reports_containment (fs : FS) (root : List String)
    (p : RawPath) (h : ¬ root <+: candidateOf fs root p) :
    resolve_workspace_path fs root p =
      Except.error (ResolveError.outsideRoot
        ("Path must be within workspace root: " ++ pathStr root)) := by
  have hb : root.isPrefixOf (candidateOf fs root p) = false :=
    Bool.eq_false_iff.mpr (fun hc => h (List.isPrefixOf_iff_prefix.mp hc))
  simp [resolve_workspace_path, hb]

/-- Witness for C1: `../../etc/passwd` under root `/work` canonicalizes
to `/etc/passwd`, and resolution reports the containment failure naming
`/work` even though nothing exists on this filesystem. -/
theorem resolve_outside_root_reports_containment_witness :
    (¬ ["work"] <+: candidateOf fsEscape ["work"]
      { isAbs := false, comps := ["..", "..", "etc", "passwd"] }) ∧
    resolve_workspace_path fsEscape ["work"]
        { isAbs := false, comps := ["..", "..", "etc", "passwd"] } =
      Except.error (ResolveError.outsideRoot
        "Path must be within workspace root: /work") :=
  ⟨by decide, resolve_outside_root_reports_containment fsEscape ["work"]
    { isAbs := false, comps := ["..", "..", "etc", "passwd"] } (by decide)⟩

/-- **C3 counterexample.** A directory `/work/shots.png` inside the root
exists but is not a regular file, yet resolution succeeds and hands it
out as a validated path: `_resolve_workspace_path` tests
`candidate.exists()`, not `candidate.is_file()`, so the claimed NotFound
failure does not happen. -/
theorem resolve_accepts_existing_directory :
    (["work"] <+: candidateOf fsDir ["work"] { isAbs := false, comps := ["shots.png"] }) ∧
    fsDir.path_exists ["work", "shots.png"] = true ∧
    fsDir.is_file ["work", "shots.png"] = false ∧
    resolve_workspace_path fsDir ["work"] { isAbs := false, comps := ["shots.png"] } =
      Except.ok ["work", "shots.png"] :=
  ⟨by decide, by decide, rfl, rfl⟩

/-- **C3 (amended).** Resolution fails with the NotFound error exactly
when the contained candidate does not exist at all (`Path.exists()`);
a produced validated path is guaranteed to exist, but not to be a
regular file. -/
theorem resolve_checks_existence_only (fs : FS) (root : List String) (p : RawPath) :
    (root <+: candidateOf fs root p →
      fs.path_exists (candidateOf fs root p) = false →
      resolve_workspace_path fs root p = Except.error (ResolveError.notFound
        ("File not found: " ++ pathStr (candidateOf fs root p)))) ∧
    (∀ c, resolve_workspace_path fs root p = Except.ok c →
      fs.path_exists c = true) := by
  constructor
  · intro hin hex
    have hb : root.isPrefixOf (candidateOf fs root p) = true := by
      simp only [List.isPrefixOf_iff_prefix]
      exact hin
    simp [resolve_workspace_path, hb, hex]
  · intro c hc
    simp only [resolve_workspace_path] at hc
    split at hc
    · split at hc
      · split at hc
        · cases hc
          assumption
        · simp at hc
      · simp at hc
    · simp at hc

/-- Witness for the amended C3: `/work/a.png` is inside the root but
absent on the empty filesystem, so resolution fails with NotFound naming
the candidate; and a successful resolution on `fsAll` indeed implies
existence. -/
theorem resolve_checks_existence_only_witness :
    resolve_workspace_path fsMissing ["work"] { isAbs := false, comps := ["a.png"] } =
      Except.error (ResolveError.notFound "File not found: /work/a.png") ∧
    fsAll.path_exists ["work", "b.png"] = true :=
  ⟨(resolve_checks_existence_only fsMissing ["work"]
      { isAbs := false, comps := ["a.png"] }).1 (by decide) rfl,
   (resolve_checks_existence_only fsAll ["work"]
      { isAbs := false, comps := ["b.png"] }).2 ["work", "b.png"] rfl⟩

/-- **C5.** An existing candidate inside the root whose extension,
lowercased, is outside the raster allow-list fails with the
UnsupportedType error naming the offending extension. -/
theorem resolve_unsupported_extension (fs : FS) (root : List String) (p : RawPath)
    (hin : root <+: candidateOf fs root p)
    (hex : fs.path_exists (candidateOf fs root p) = true)
    (hud : allowed_suffixes.contains
      (pyLower (pySuffix ((candidateOf fs root p).getLastD ""))) = false) :
    resolve_workspace_path fs root p =
      Except.error (ResolveError.unsupportedType
        ("Unsupported image type: " ++ pySuffix ((candidateOf fs root p).getLastD ""))) := by
  have hb : root.isPrefixOf (candidateOf fs root p) = true := by
    simp only [List.isPrefixOf_iff_prefix]
    exact hin
  have hud' : pyLower (pySuffix ((candidateOf fs root p).getLast?.getD "")) ∉ allowed_suffixes := by
    simpa using hud
  simp [resolve_workspace_path, hb, hex, hud']

/-- Witness for C5: the spec's scenario — an existing `shot.gif` under
root `/work` fails with UnsupportedType naming `.gif`. -/
theorem resolve_unsupported_extension_witness :
    resolve_workspace_path fsAll ["work"] { isAbs := false, comps := ["shot.gif"] } =
      Except.error (ResolveError.unsupportedType "Unsupported image type: .gif") :=
  resolve_unsupported_extension fsAll ["work"] { isAbs := false, comps := ["shot.gif"] }
    (by decide) rfl (by decide)

/-- Scaling a dimension no larger than the edge cannot exceed the
configured maximum. -/
lemma scaled_le (a e M : Nat) (hae : a ≤ e) (he : 0 < e) : a * M / e ≤ M := by
  calc a * M / e ≤ e * M / e := Nat.div_le_div_right (Nat.mul_le_mul_right M hae)
    _ = M := Nat.mul_div_cancel_left M he

/-- When downscaling triggers, the longest output edge is exactly the
configured maximum. -/
lemma normalize_longest (M w h : Nat) (hlt : M < max w h) :
    max (w * M / max w h) (h * M / max w h) = M := by
  rcases Nat.le_total w h with hwh | hwh
  · have hmax : max w h = h := Nat.max_eq_right hwh
    have hh : 0 < h := by
      have := Nat.lt_of_le_of_lt (Nat.zero_le M) hlt
      omega
    rw [hmax]
    have h1 : w * M / h ≤ M := scaled_le w h M hwh hh
    have h2 : h * M / h = M := Nat.mul_div_cancel_left M hh
    rw [h2, Nat.max_eq_right h1]
  · have hmax : max w h = w := Nat.max_eq_left hwh
    have hw : 0 < w := by
      have := Nat.lt_of_le_of_lt (Nat.zero_le M) hlt
      omega
    rw [hmax]
    have h1 : h * M / w ≤ M := scaled_le h w M hwh hw
    have h2 : w * M / w = M := Nat.mul_div_cancel_left M hw
    rw [h2, Nat.max_eq_left h1]

/-- When downscaling triggers, the truncated dimensions keep the aspect
ratio within the rounding tolerance of the original edge. -/
lemma normalize_aspect (M w h : Nat) (hlt : M < max w h) :
    |((w * M / max w h : Nat) : ℤ) * h - w * ((h * M / max w h : Nat) : ℤ)| <
      (max w h : ℤ) := by
  have he : 0 < max w h := Nat.lt_of_le_of_lt (Nat.zero_le M) hlt
  have h1 : (max w h : ℤ) * ((w * M / max w h : Nat) : ℤ) +
      ((w * M % max w h : Nat) : ℤ) = (w : ℤ) * M := by
    exact_mod_cast Nat.div_add_mod (w * M) (max w h)
  have h2 : (max w h : ℤ) * ((h * M / max w h : Nat) : ℤ) +
      ((h * M % max w h : Nat) : ℤ) = (h : ℤ) * M := by
    exact_mod_cast Nat.div_add_mod (h * M) (max w h)
  have hr1 : ((w * M % max w h : Nat) : ℤ) < (max w h : ℤ) := by
    exact_mod_cast Nat.mod_lt _ he
  have hr2 : ((h * M % max w h : Nat) : ℤ) < (max w h : ℤ) := by
    exact_mod_cast Nat.mod_lt _ he
  have hr1n : (0 : ℤ) ≤ ((w * M % max w h : Nat) : ℤ) := Int.natCast_nonneg _
  have hr2n : (0 : ℤ) ≤ ((h * M % max w h : Nat) : ℤ) := Int.natCast_nonneg _
  have hwle : (w : ℤ) ≤ (max w h : ℤ) := by exact_mod_cast Nat.le_max_left w h
  have hhle : (h : ℤ) ≤ (max w h : ℤ) := by exact_mod_cast Nat.le_max_right w h
  have hw0 : (0 : ℤ) ≤ (w : ℤ) := Int.natCast_nonneg _
  have hh0 : (0 : ℤ) ≤ (h : ℤ) := Int.natCast_nonneg _
  have hez : (0 : ℤ) < (max w h : ℤ) := by exact_mod_cast he
  have key : (max w h : ℤ) *
      (((w * M / max w h : Nat) : ℤ) * h - w * ((h * M / max w h : Nat) : ℤ)) =
      (w : ℤ) * ((h * M % max w h : Nat) : ℤ) -
        ((w * M % max w h : Nat) : ℤ) * h := by
    linear_combination (h : ℤ) * h1 - (w : ℤ) * h2
  have hA : (w : ℤ) * ((h * M % max w h : Nat) : ℤ) < (max w h : ℤ) * (max w h : ℤ) :=
    calc (w : ℤ) * ((h * M % max w h : Nat) : ℤ)
        ≤ (max w h : ℤ) * ((h * M % max w h : Nat) : ℤ) :=
          mul_le_mul_of_nonneg_right hwle hr2n
      _ < (max w h : ℤ) * (max w h : ℤ) := by
          exact mul_lt_mul_of_pos_left hr2 hez
  have hB : ((w * M % max w h : Nat) : ℤ) * h < (max w h : ℤ) * (max w h : ℤ) :=
    calc ((w * M % max w h : Nat) : ℤ) * h
        ≤ ((w * M % max w h : Nat) : ℤ) * (max w h : ℤ) :=
          mul_le_mul_of_nonneg_left hhle hr1n
      _ < (max w h : ℤ) * (max w h : ℤ) :=
          mul_lt_mul_of_pos_right hr1 hez
  have habs : |(w : ℤ) * ((h * M % max w h : Nat) : ℤ) -
      ((w * M % max w h : Nat) : ℤ) * h| < (max w h : ℤ) * (max w h : ℤ) := by
    rw [abs_sub_lt_iff]
    constructor
    · have hp : (0 : ℤ) ≤ ((w * M % max w h : Nat) : ℤ) * h := mul_nonneg hr1n hh0
      linarith
    · have hp : (0 : ℤ) ≤ (w : ℤ) * ((h * M % max w h : Nat) : ℤ) := mul_nonneg hw0 hr2n
      linarith
  have hmul : |(max w h : ℤ)| *
      |((w * M / max w h : Nat) : ℤ) * h - w * ((h * M / max w h : Nat) : ℤ)| <
      (max w h : ℤ) * (max w h : ℤ) := by
    rw [← abs_mul, key]
    exact habs
  rw [abs_of_pos hez] at hmul
  exact lt_of_mul_lt_mul_left hmul hez.le

/-- **C4.** Normalization is a dimensional no-op when the longest edge
is within the configured maximum; otherwise both dimensions are the
truncated `maximum / edge` rescalings, the output longest edge is
exactly the maximum, and the aspect ratio is preserved within the
truncation tolerance; in particular 3200×1800 at maximum 1600 yields
exactly 1600×900. -/
theorem normalize_dims_correct :
    normalizeDims 1600 3200 1800 = (1600, 900) ∧
    (∀ M w h, max w h ≤ M → normalizeDims M w h = (w, h)) ∧
    (∀ M w h, M < max w h →
      normalizeDims M w h = (w * M / max w h, h * M / max w h) ∧
      max (normalizeDims M w h).1 (normalizeDims M w h).2 = M ∧
      |((normalizeDims M w h).1 : ℤ) * h - w * ((normalizeDims M w h).2 : ℤ)| <
        (max w h : ℤ)) := by
  refine ⟨by decide, ?_, ?_⟩
  · intro M w h hle
    simp [normalizeDims, Nat.not_lt.mpr hle]
  · intro M w h hlt
    have heq : normalizeDims M w h = (w * M / max w h, h * M / max w h) := by
      simp [normalizeDims, hlt]
    refine ⟨heq, ?_, ?_⟩
    · rw [heq]
      exact normalize_longest M w h hlt
    · rw [heq]
      exact normalize_aspect M w h hlt

/-- Witness for C4: the no-op branch at 800×600 with maximum 1600, and
the downscale branch at 3200×1800. -/
theorem normalize_dims_correct_witness :
    normalizeDims 1600 800 600 = (800, 600) ∧
    max (normalizeDims 1600 3200 1800).1 (normalizeDims 1600 3200 1800).2 = 1600 :=
  ⟨normalize_dims_correct.2.1 1600 800 600 (by decide),
   (normalize_dims_correct.2.2 1600 3200 1800 (by decide)).2.1⟩

/-- **C10.** A 1×2000 image with maximum edge 1600 triggers the
downscale and yields a truncated width of `int(1 * 1600/2000) = 0`, so
normalization does not guarantee both output dimensions are at least one
pixel. -/
theorem normalize_dims_zero_width :
    1600 < max 1 2000 ∧
    normalizeDims 1600 1 2000 = (0, 1600) ∧
    ¬ 0 < (normalizeDims 1600 1 2000).1 := by
  decide

/-- A filesystem with an identity canonicalizer on which every path
exists as a regular file and decodes to an 8×6 image. -/
def fsShot : FS :=
  { canon := id
    path_exists := fun _ => true
    is_file := fun _ => true
    decodeImage := fun _ => some (8, 6) }

/-- A server environment over `fsShot` with root `/work`, the default
model and edge limit, and the given backend. -/
def mkEnv (b : ChatPayload → BackendBehavior) : Env :=
  { fs := fsShot
    root := ["work"]
    ollama_model := "qwen2.5vl:7b"
    maxEdge := 1600
    encode_b64 := fun _ => "B64"
    backend := b }

/-- **C6.** Every payload the client builds has exactly one user-role
message carrying exactly one image, streaming disabled, and the
`format: "json"` key exactly when `json_mode` is set — which is the case
for the ui-spec handler and for neither ask nor extract-text. -/
theorem chat_payload_shape :
    (∀ model img prompt json_mode,
      (mkPayload model img prompt json_mode).messages =
        [{ role := "user", content := prompt, images := [img] }] ∧
      (∀ m, m ∈ (mkPayload model img prompt json_mode).messages →
        m.role = "user" ∧ m.images.length = 1) ∧
      (mkPayload model img prompt json_mode).stream = false ∧
      ((mkPayload model img prompt json_mode).format = some "json" ↔ json_mode = true)) ∧
    ask_json_mode = false ∧ ocr_json_mode = false ∧ ui_spec_json_mode = true := by
  refine ⟨?_, rfl, rfl, rfl⟩
  intro model img prompt json_mode
  refine ⟨rfl, ?_, rfl, ?_⟩
  · intro m hm
    simp only [mkPayload, List.mem_singleton] at hm
    subst hm
    exact ⟨rfl, rfl⟩
  · cases json_mode <;> simp [mkPayload]

/-- Witness for C6: the concrete payload of a json-mode call. -/
theorem chat_payload_shape_witness :
    (mkPayload "m" "I" "q" true).stream = false ∧
    ({ role := "user", content := "q", images := ["I"] } : ChatMessage).images.length = 1 :=
  ⟨(chat_payload_shape.1 "m" "I" "q" true).2.2.1,
   ((chat_payload_shape.1 "m" "I" "q" true).2.1 _ (by simp [mkPayload])).2⟩

/-- **C7.** A backend response with a non-success status (the 4xx/5xx
range `raise_for_status` raises on) fails the chat call with a
BackendError carrying the status; connection failures surface as
BackendUnavailable and timeouts as BackendTimeout; and an `ask` call
whose backend answers such a status fails as a whole with that error,
returning no partial result. -/
theorem backend_failures_propagate :
    (∀ model img prompt jm s msg, 400 ≤ s → s < 600 →
      ollama_chat_with_image (fun _ => BackendBehavior.response s msg) model img prompt jm =
        Except.error (ChatError.backendError s)) ∧
    (∀ model img prompt jm,
      ollama_chat_with_image (fun _ => BackendBehavior.connectionFailure) model img prompt jm =
        Except.error ChatError.backendUnavailable) ∧
    (∀ model img prompt jm,
      ollama_chat_with_image (fun _ => BackendBehavior.timeout) model img prompt jm =
        Except.error ChatError.backendTimeout) ∧
    (∀ env ip q c b64 s msg, 400 ≤ s → s < 600 →
      resolve_workspace_path env.fs env.root ip = Except.ok c →
      load_image_b64 env c = Except.ok b64 →
      (∀ pl, env.backend pl = BackendBehavior.response s msg) →
      vision_ask env ip q = Except.error (ToolError.chatErr (ChatError.backendError s))) := by
  have hraise : ∀ s, 400 ≤ s → s < 600 → status_raises s = true := by
    intro s h4 h6
    simp only [status_raises, decide_eq_true_eq]
    exact ⟨h4, h6⟩
  refine ⟨?_, fun _ _ _ _ => rfl, fun _ _ _ _ => rfl, ?_⟩
  · intro model img prompt jm s msg h4 h6
    simp [ollama_chat_with_image, hraise s h4 h6]
  · intro env ip q c b64 s msg h4 h6 hres hload hb
    simp [vision_ask, hres, hload, ollama_chat_with_image, hb, hraise s h4 h6,
      Except.mapError, bind, Except.bind]

/-- Witness for C7: the spec's scenario — backend answers HTTP 500 and
the whole `ask` call fails with BackendError 500. -/
theorem backend_failures_propagate_witness :
    vision_ask (mkEnv (fun _ => BackendBehavior.response 500 none))
        { isAbs := false, comps := ["shot.png"] } "What is this?" =
      Except.error (ToolError.chatErr (ChatError.backendError 500)) :=
  backend_failures_propagate.2.2.2 (mkEnv (fun _ => BackendBehavior.response 500 none))
    { isAbs := false, comps := ["shot.png"] } "What is this?" ["work", "shot.png"] "B64"
    500 none (by decide) (by decide) rfl rfl (fun _ => rfl)

/-- **C8.** On a successful (2xx) backend response the chat call returns
exactly the reply's message-content field with surrounding whitespace
stripped, and the empty string when the message or its content field is
absent. -/
theorem chat_success_returns_trimmed_content :
    (∀ model img prompt jm s c, 200 ≤ s → s < 300 →
      ollama_chat_with_image (fun _ => BackendBehavior.response s (some { content := some c }))
          model img prompt jm = Except.ok (pyStrip c)) ∧
    (∀ model img prompt jm s msg, 200 ≤ s → s < 300 →
      (msg = none ∨ msg = some { content := none }) →
      ollama_chat_with_image (fun _ => BackendBehavior.response s msg) model img prompt jm =
        Except.ok "") := by
  have hok : ∀ s, 200 ≤ s → s < 300 → status_raises s = false := by
    intro s h2 h3
    simp only [status_raises, decide_eq_false_iff_not, not_and, not_lt]
    omega
  constructor
  · intro model img prompt jm s c h2 h3
    simp [ollama_chat_with_image, hok s h2 h3, extract_reply]
  · intro model img prompt jm s msg h2 h3 habs
    rcases habs with h | h <;> subst h <;>
      simp [ollama_chat_with_image, hok s h2 h3, extract_reply, pyStrip]

/-- Witness for C8: a padded reply is stripped, and an absent content
field yields the empty string. -/
theorem chat_success_returns_trimmed_content_witness :
    ollama_chat_with_image (fun _ => BackendBehavior.response 200
        (some { content := some " hi " })) "m" "I" "q" false = Except.ok "hi" ∧
    ollama_chat_with_image (fun _ => BackendBehavior.response 200 none) "m" "I" "q" false =
      Except.ok "" :=
  ⟨chat_success_returns_trimmed_content.1 "m" "I" "q" false 200 " hi "
      (by decide) (by decide),
   chat_success_returns_trimmed_content.2 "m" "I" "q" false 200 none
      (by decide) (by decide) (Or.inl rfl)⟩

/-- Both branches of the ui-spec reply shaping keep the model and the
relative image path. -/
lemma ui_spec_shape_fields (m i raw : String) :
    (ui_spec_shape m i raw).model = m ∧ (ui_spec_shape m i raw).image = i := by
  unfold ui_spec_shape
  cases json_loads raw <;> exact ⟨rfl, rfl⟩

/-- **C9.** Every successful result of the three tools carries the
configured model identifier and the image's path relative to the
workspace root (the `str(path.relative_to(WORKSPACE_ROOT))` rendering),
not the absolute path. -/
theorem results_use_relative_path (env : Env) (ip : RawPath) (q : String) (c : List String)
    (hres : resolve_workspace_path env.fs env.root ip = Except.ok c) :
    (∀ r, vision_ask env ip q = Except.ok r →
      r.model = env.ollama_model ∧ r.image = relative_to_str env.root c) ∧
    (∀ r, vision_ocr env ip = Except.ok r →
      r.model = env.ollama_model ∧ r.image = relative_to_str env.root c) ∧
    (∀ r, vision_ui_spec env ip = Except.ok r →
      r.model = env.ollama_model ∧ r.image = relative_to_str env.root c) := by
  refine ⟨?_, ?_, ?_⟩
  · intro r hr
    simp only [vision_ask, hres, Except.mapError, bind, Except.bind] at hr
    cases hload : load_image_b64 env c with
    | error e => rw [hload] at hr; simp at hr
    | ok b64 =>
      rw [hload] at hr
      dsimp only at hr
      cases hchat : ollama_chat_with_image env.backend env.ollama_model b64 q ask_json_mode with
      | error e => rw [hchat] at hr; simp at hr
      | ok ans =>
        rw [hchat] at hr
        dsimp only at hr
        have heq := Except.ok.inj hr
        subst heq
        exact ⟨rfl, rfl⟩
  · intro r hr
    simp only [vision_ocr, hres, Except.mapError, bind, Except.bind] at hr
    cases hload : load_image_b64 env c with
    | error e => rw [hload] at hr; simp at hr
    | ok b64 =>
      rw [hload] at hr
      dsimp only at hr
      cases hchat : ollama_chat_with_image env.backend env.ollama_model b64 ocr_prompt
          ocr_json_mode with
      | error e => rw [hchat] at hr; simp at hr
      | ok ans =>
        rw [hchat] at hr
        dsimp only at hr
        have heq := Except.ok.inj hr
        subst heq
        exact ⟨rfl, rfl⟩
  · intro r hr
    simp only [vision_ui_spec, hres, Except.mapError, bind, Except.bind] at hr
    cases hload : load_image_b64 env c with
    | error e => rw [hload] at hr; simp at hr
    | ok b64 =>
      rw [hload] at hr
      dsimp only at hr
      cases hchat : ollama_chat_with_image env.backend env.ollama_model b64 ui_spec_prompt
          ui_spec_json_mode with
      | error e => rw [hchat] at hr; simp at hr
      | ok raw =>
        rw [hchat] at hr
        dsimp only at hr
        have heq := Except.ok.inj hr
        subst heq
        exact ui_spec_shape_fields env.ollama_model (relative_to_str env.root c) raw

/-- Witness for C9: a successful `ask` call on `/work/shot.png` reports
model `qwen2.5vl:7b` and the relative path `shot.png`. -/
theorem results_use_relative_path_witness :
    ({ model := "qwen2.5vl:7b", image := "shot.png", answer := "hello" } : AskResult).model =
      (mkEnv (fun _ => BackendBehavior.response 200
        (some { content := some "hello" }))).ollama_model ∧
    ({ model := "qwen2.5vl:7b", image := "shot.png", answer := "hello" } : AskResult).image =
      relative_to_str (mkEnv (fun _ => BackendBehavior.response 200
        (some { content := some "hello" }))).root ["work", "shot.png"] :=
  (results_use_relative_path
      (mkEnv (fun _ => BackendBehavior.response 200 (some { content := some "hello" })))
      { isAbs := false, comps := ["shot.png"] } "q" ["work", "shot.png"] rfl).1
    { model := "qwen2.5vl:7b", image := "shot.png", answer := "hello" } rfl

/-- **C2 counterexample.** A backend reply `[1, 2, 3]` is valid JSON
that does not match the UiSpecDocument shape, yet `vision_ui_spec`
returns it under `ui` (with `ui_raw` absent): the handler parses the
reply as generic JSON and never validates the UiSpecDocument shape, so
"wrong shape" does not fall back to `ui_raw` as claimed. -/
theorem ui_spec_wrong_shape_returns_ui :
    json_loads "[1, 2, 3]" = some (Json.arr [Json.num 1, Json.num 2, Json.num 3]) ∧
    matchesUiSpecDocument (Json.arr [Json.num 1, Json.num 2, Json.num 3]) = false ∧
    vision_ui_spec (mkEnv (fun _ => BackendBehavior.response 200
        (some { content := some "[1, 2, 3]" }))) { isAbs := false, comps := ["shot.png"] } =
      Except.ok { model := "qwen2.5vl:7b", image := "shot.png"
                  ui := some (Json.arr [Json.num 1, Json.num 2, Json.num 3]), ui_raw := none } :=
  ⟨rfl, rfl, rfl⟩

/-- **C2 (amended).** The ui-spec reply is parsed as generic JSON, with
no shape validation: any syntactically valid JSON reply populates `ui`
(and omits `ui_raw`) whatever its shape; only a reply that fails JSON
parsing populates `ui_raw` with the raw text (and omits `ui`); in both
branches the tool call itself succeeds.  A reply matching the
UiSpecDocument shape — e.g. the spec's
`{"summary":"ok","elements":[]}` — is in particular valid JSON and
populates `ui`. -/
theorem ui_spec_parse_is_generic_json :
    (∀ model image raw j, json_loads raw = some j →
      ui_spec_shape model image raw =
        { model := model, image := image, ui := some j, ui_raw := none }) ∧
    (∀ model image raw, json_loads raw = none →
      ui_spec_shape model image raw =
        { model := model, image := image, ui := none, ui_raw := some raw }) ∧
    (∀ env ip c b64 raw, resolve_workspace_path env.fs env.root ip = Except.ok c →
      load_image_b64 env c = Except.ok b64 →
      ollama_chat_with_image env.backend env.ollama_model b64 ui_spec_prompt
        ui_spec_json_mode = Except.ok raw →
      vision_ui_spec env ip =
        Except.ok (ui_spec_shape env.ollama_model (relative_to_str env.root c) raw)) ∧
    json_loads "\x7b\"summary\":\"ok\",\"elements\":[]\x7d" =
      some (Json.obj [("summary", Json.str "ok"), ("elements", Json.arr [])]) ∧
    matchesUiSpecDocument (Json.obj [("summary", Json.str "ok"), ("elements", Json.arr [])]) =
      true := by
  refine ⟨?_, ?_, ?_, rfl, rfl⟩
  · intro model image raw j hj
    simp [ui_spec_shape, hj]
  · intro model image raw hj
    simp [ui_spec_shape, hj]
  · intro env ip c b64 raw hres hload hchat
    simp [vision_ui_spec, hres, hload, hchat, Except.mapError, bind, Except.bind]

/-- Witness for the amended C2: a prose reply falls back to `ui_raw`,
and a successful pipeline returns the shaped reply. -/
theorem ui_spec_parse_is_generic_json_witness :
    ui_spec_shape "m" "i" "not json" =
      { model := "m", image := "i", ui := none, ui_raw := some "not json" } ∧
    vision_ui_spec (mkEnv (fun _ => BackendBehavior.response 200
        (some { content := some "hello" }))) { isAbs := false, comps := ["shot.png"] } =
      Except.ok (ui_spec_shape "qwen2.5vl:7b" "shot.png" "hello") :=
  ⟨ui_spec_parse_is_generic_json.2.1 "m" "i" "not json" rfl,
   ui_spec_parse_is_generic_json.2.2.1
     (mkEnv (fun _ => BackendBehavior.response 200 (some { content := some "hello" })))
     { isAbs := false, comps := ["shot.png"] } ["work", "shot.png"] "B64" "hello"
     rfl rfl rfl⟩

end VisionBridge
